import Mathlib

/-!
Verification of the Odyssey mobile authorization core: a shallow embedding of
the data model (Zod schemas in src/types), the agent and session stores, the
session-request validation in the API client, the pairing poll loop of
PairAgentScreen, the expiry checks of the session store and
SessionDetailScreen, and the unpair flow of AgentDetailScreen.

JavaScript numbers are modelled as exact rationals: the validation and
comparison logic under study only uses ordering, addition, multiplication and
integer powers of ten, which rationals reproduce faithfully for the inputs at
hand.  Timestamps (Date.now values and elapsed milliseconds) are naturals.
-/

namespace Odyssey

/-- AgentStatusSchema: z.enum(['active', 'inactive', 'revoked']). -/
inductive AgentStatus where
  | active
  | inactive
  | revoked
deriving DecidableEq, Repr

/-- AgentSchema: a paired AI agent. -/
structure Agent where
  id : String
  name : String
  pairedAt : Nat
  lastSeen : Option Nat
  status : AgentStatus
deriving DecidableEq, Repr

/-- SessionStatusSchema: z.enum(['pending','active','expired','revoked','exhausted']). -/
inductive SessionStatus where
  | pending
  | active
  | expired
  | revoked
  | exhausted
deriving DecidableEq, Repr

/-- The terminal statuses named by the session lifecycle (expired, revoked,
exhausted); used to state the monotonicity claims. -/
def SessionStatus.isTerminal : SessionStatus → Bool
  | .expired => true
  | .revoked => true
  | .exhausted => true
  | _ => false

/-- SpendingLimitSchema: mint : z.string(), amount : z.number().nonnegative(),
decimals : z.number().int().nonnegative(), symbol : z.string().optional().
The amount and decimals fields are arbitrary JS numbers before validation, so
they are modelled as rationals. -/
structure SpendingLimit where
  mint : String
  amount : ℚ
  decimals : ℚ
  symbol : Option String
deriving DecidableEq, Repr

/-- The Zod check SpendingLimitSchema performs on one limit: amount is
non-negative and decimals is a non-negative integer (mint and symbol are
unconstrained strings). -/
def spendingLimitValid (l : SpendingLimit) : Bool :=
  decide (0 ≤ l.amount) && l.decimals.isInt && decide (0 ≤ l.decimals)

/-- SessionSchema: a time-limited spending session for an agent.  The spent
record (mint → amount in base units) is an association list. -/
structure Session where
  id : String
  agentId : String
  walletPubkey : String
  sessionPubkey : String
  limits : List SpendingLimit
  durationSeconds : ℚ
  createdAt : Nat
  expiresAt : Nat
  status : SessionStatus
  spent : List (String × ℚ)
deriving DecidableEq, Repr

/-- Outcome of api.session.request as far as the validation contract is
concerned: either the limits fail validation (a ValidationError is thrown and
no HTTP request is made) or the request body is submitted to the service. -/
inductive SessionRequestResult where
  | validationError
  | submitted
deriving DecidableEq, Repr

/-- z.array(SpendingLimitSchema).safeParse(params.limits): every element must
pass the per-limit check. -/
def validateLimits (limits : List SpendingLimit) : Bool :=
  limits.all spendingLimitValid

/-- api.session.request (services/api): validates the limits with
z.array(SpendingLimitSchema) before sending; on failure it throws
ValidationError('Invalid spending limits') without issuing the remote request,
otherwise it POSTs /api/request-session. -/
def sessionRequestValidate (limits : List SpendingLimit) : SessionRequestResult :=
  if validateLimits limits then .submitted else .validationError

/-- Math.pow(10, decimals) as used by the screens; decimals is
schema-validated to be a non-negative integer, for which the rational power
below coincides with the JS value. -/
def pow10 (d : ℚ) : ℚ :=
  (10 : ℚ) ^ d.num.toNat

/-- SessionDetailScreen SpendingProgress: isExhausted = spentAmount >=
limitAmount, both taken directly in base units (the code comments there state
that spent and limit.amount are both in base units). -/
def spendingProgressIsExhausted (limit : SpendingLimit) (spent : ℚ) : Bool :=
  decide (limit.amount ≤ spent)

/-- AgentDetailScreen SessionListItem progress bar: the colour switches on
spent >= limit.amount * Math.pow(10, limit.decimals). -/
def sessionListItemIsExhausted (limit : SpendingLimit) (spent : ℚ) : Bool :=
  decide (limit.amount * pow10 limit.decimals ≤ spent)

/-- The lazy expiry check applied when sessions are read: both
useSessionStore.loadSessions and the SessionDetailScreen effect transition a
session to expired when status === 'active' and expiresAt < now. -/
def checkExpiry (now : Nat) (s : Session) : Session :=
  if s.status = .active ∧ s.expiresAt < now then { s with status := .expired } else s

/-- useSessionStore.loadSessions expiry pass: sessions.map over the stored
collection with the expiry check. -/
def expirePass (now : Nat) (sessions : List Session) : List Session :=
  sessions.map (checkExpiry now)

/-- Partial<Session>: the update record accepted by
useSessionStore.updateSession; absent fields leave the session untouched. -/
structure SessionPatch where
  id : Option String := none
  agentId : Option String := none
  walletPubkey : Option String := none
  sessionPubkey : Option String := none
  limits : Option (List SpendingLimit) := none
  durationSeconds : Option ℚ := none
  createdAt : Option Nat := none
  expiresAt : Option Nat := none
  status : Option SessionStatus := none
  spent : Option (List (String × ℚ)) := none
deriving DecidableEq, Repr

/-- The JS spread { ...s, ...updates }: fields present in the update override
the session's fields. -/
def applyPatch (s : Session) (p : SessionPatch) : Session :=
  { id := p.id.getD s.id
    agentId := p.agentId.getD s.agentId
    walletPubkey := p.walletPubkey.getD s.walletPubkey
    sessionPubkey := p.sessionPubkey.getD s.sessionPubkey
    limits := p.limits.getD s.limits
    durationSeconds := p.durationSeconds.getD s.durationSeconds
    createdAt := p.createdAt.getD s.createdAt
    expiresAt := p.expiresAt.getD s.expiresAt
    status := p.status.getD s.status
    spent := p.spent.getD s.spent }

/-- The per-element function of useSessionStore.updateSession:
s.id === sessionId ? { ...s, ...updates } : s. -/
def updateFn (sessionId : String) (p : SessionPatch) (s : Session) : Session :=
  if s.id = sessionId then applyPatch s p else s

/-- useSessionStore.updateSession: maps the update over the whole stored
collection and persists the result; no guard inspects the current status. -/
def updateSession (sessions : List Session) (sessionId : String) (p : SessionPatch) :
    List Session :=
  sessions.map (updateFn sessionId p)

/-- The update record used by SessionDetailScreen.handleRevoke:
{ status: 'revoked' }.  The screen renders the revoke button only while the
displayed session has status 'active'. -/
def revokePatch : SessionPatch :=
  { status := some .revoked }

/-- PairAgentScreen poll timing constants. -/
def POLL_INTERVAL_MS : Nat := 2000

/-- Maximum wall-clock polling duration (2 minutes). -/
def MAX_POLL_DURATION_MS : Nat := 120000

/-- What one poll of api.pairing.getStatus can yield inside the loop: one of
the four PairingStatusResponse statuses, or a thrown error (network failure)
caught by the poll's catch block. -/
inductive PollResponse where
  | pending
  | approved (agentId agentName : Option String)
  | rejected
  | expired
  | networkError
deriving DecidableEq, Repr

/-- The Agent record PairAgentScreen constructs on an approved response:
id := response.agentId ?? requestId, name := response.agentName ?? 'Unknown
Agent', pairedAt := Date.now(), lastSeen := null, status := 'active'. -/
def mkAgentFromApproval (agentId agentName : Option String) (requestId : String)
    (now : Nat) : Agent :=
  { id := agentId.getD requestId
    name := agentName.getD "Unknown Agent"
    pairedAt := now
    lastSeen := none
    status := .active }

/-- How a run of the polling loop can end. -/
inductive PollOutcome where
  | approvedDone (agent : Agent)
  | rejectedDone
  | expiredDone
  | timedOut
deriving DecidableEq, Repr

/-- Transcript semantics of PairAgentScreen.startPolling: each entry is the
elapsed time (Date.now() - pollStartRef.current, in ms) at which a poll fires
together with the response that poll observes.  A poll first checks the
wall-clock bound (strictly greater than MAX_POLL_DURATION_MS) and times out
without touching the response; otherwise an explicit approved, rejected or
expired response clears the interval and ends the loop, while a pending
response or a thrown network error leaves the interval running.  An exhausted
transcript with no outcome means the loop is still polling. -/
def pollLoop (start : Nat) (requestId : String) :
    List (Nat × PollResponse) → Option PollOutcome
  | [] => none
  | (t, r) :: rest =>
    if MAX_POLL_DURATION_MS < t then some .timedOut
    else
      match r with
      | .approved aid aname =>
          some (.approvedDone (mkAgentFromApproval aid aname requestId (start + t)))
      | .rejected => some .rejectedDone
      | .expired => some .expiredDone
      | .pending => pollLoop start requestId rest
      | .networkError => pollLoop start requestId rest

/-- The ideal setInterval schedule: poll number k fires at elapsed time
POLL_INTERVAL_MS * k (the loop performs an initial immediate poll, then one
every POLL_INTERVAL_MS). -/
def scheduleFrom (k : Nat) : List PollResponse → List (Nat × PollResponse)
  | [] => []
  | r :: rs => (POLL_INTERVAL_MS * k, r) :: scheduleFrom (k + 1) rs

/-- useAgentStore.addAgent: rejects a duplicate id with the error 'Agent
already paired' and leaves the collection unchanged; otherwise appends the
agent and reports no error. -/
def addAgent (agents : List Agent) (a : Agent) : List Agent × Option String :=
  if agents.any (fun b => b.id == a.id) then (agents, some "Agent already paired")
  else (agents ++ [a], none)

/-- The UI state of PairAgentScreen. -/
inductive PairingUiState where
  | idle
  | submitting
  | polling (requestId : String)
  | success (agentName : String)
  | error (message : String)
deriving DecidableEq, Repr

/-- PairAgentScreen component state: the entered code, the pairing UI state,
and whether the poll interval is installed (pollIntervalRef.current is not
null). -/
structure ScreenState where
  code : String
  pairing : PairingUiState
  intervalActive : Bool
deriving DecidableEq, Repr

/-- PairAgentScreen.handleRetry, wired to the Cancel button shown while
polling: it resets the code and the UI state to idle.  It does not call
clearInterval, so intervalActive is left as it was. -/
def handleRetry (s : ScreenState) : ScreenState :=
  { s with code := "", pairing := .idle }

/-- One firing of the poll callback of PairAgentScreen.startPolling against
the component state and the agent store: past the wall-clock bound it clears
the interval and reports a timeout error; an approved response clears the
interval, adds the constructed agent via useAgentStore.addAgent and sets the
success state; rejected and expired clear the interval with their error
messages; pending and thrown network errors change nothing. -/
def pollCallback (elapsed : Nat) (r : PollResponse) (requestId : String) (now : Nat)
    (s : ScreenState) (agents : List Agent) : ScreenState × List Agent :=
  if MAX_POLL_DURATION_MS < elapsed then
    ({ s with intervalActive := false, pairing := .error "Pairing request timed out" }, agents)
  else
    match r with
    | .approved aid aname =>
        ({ s with intervalActive := false,
                  pairing := .success (aname.getD "Unknown Agent") },
         (addAgent agents (mkAgentFromApproval aid aname requestId now)).1)
    | .rejected =>
        ({ s with intervalActive := false,
                  pairing := .error "Pairing request was rejected" }, agents)
    | .expired =>
        ({ s with intervalActive := false,
                  pairing := .error "Pairing request expired" }, agents)
    | .pending => (s, agents)
    | .networkError => (s, agents)

/-- useAgentStore.updateAgentStatus: map over the collection, replacing the
status of the agent with the matching id. -/
def updateAgentStatus (agents : List Agent) (agentId : String) (st : AgentStatus) :
    List Agent :=
  agents.map (fun a => if a.id == agentId then { a with status := st } else a)

/-- useAgentStore.removeAgent: filters the agent out of the collection and
persists; it never inspects the session store and its success path surfaces
no error. -/
def removeAgent (agents : List Agent) (agentId : String) : List Agent × Option String :=
  (agents.filter (fun a => a.id != agentId), none)

/-- useSessionStore.removeSessionsForAgent: drops every session belonging to
the agent. -/
def removeSessionsForAgent (sessions : List Session) (agentId : String) : List Session :=
  sessions.filter (fun s => s.agentId != agentId)

/-- The confirm action of AgentDetailScreen.handleUnpair: set the agent's
status to revoked, remove all of the agent's sessions, then remove the agent
from the registry. -/
def handleUnpair (agents : List Agent) (sessions : List Session) (agentId : String) :
    List Agent × List Session :=
  let agents1 := updateAgentStatus agents agentId .revoked
  let sessions1 := removeSessionsForAgent sessions agentId
  ((removeAgent agents1 agentId).1, sessions1)

/-! Concrete records used by counterexamples and witnesses. -/

/-- A limits array with two entries for the same mint; every entry passes
SpendingLimitSchema. -/
def dupMintLimits : List SpendingLimit :=
  [ { mint := "native", amount := 1, decimals := 9, symbol := none },
    { mint := "native", amount := 2, decimals := 9, symbol := none } ]

/-- A 1 SOL limit in base units (1e9 lamports, 9 decimals). -/
def solLimit : SpendingLimit :=
  { mint := "native", amount := 1000000000, decimals := 9, symbol := some "SOL" }

/-- An active session for agent a1 expiring at t = 100000 ms. -/
def sampleSession : Session :=
  { id := "s1"
    agentId := "a1"
    walletPubkey := "w"
    sessionPubkey := "k"
    limits := [solLimit]
    durationSeconds := 60
    createdAt := 40000
    expiresAt := 100000
    status := .active
    spent := [("native", 0)] }

/-- A session already in the terminal status expired. -/
def expiredSession : Session :=
  { sampleSession with id := "s2", status := .expired }

/-- A paired agent record for a1. -/
def agentA1 : Agent :=
  { id := "a1", name := "Bot", pairedAt := 0, lastSeen := none, status := .active }

/-- The component state of PairAgentScreen while it is polling for code
ABC123. -/
def pollingState : ScreenState :=
  { code := "ABC123", pairing := .polling "ABC123", intervalActive := true }

/-- The scenario transcript: three pending polls on the 2000 ms schedule, then
approved with agentId a1 and agentName Bot. -/
def scenarioTranscript : List (Nat × PollResponse) :=
  [(0, .pending), (2000, .pending), (4000, .pending),
   (6000, .approved (some "a1") (some "Bot"))]

/-- The agent record produced by the scenario: approval observed at elapsed
6000 ms with pollStart 1000, so pairedAt = 7000. -/
def agentBot : Agent :=
  mkAgentFromApproval (some "a1") (some "Bot") "ABC123" 7000

/-! Theorems. -/

/-- C1 counterexample: the limits array dupMintLimits carries two entries for
the mint "native", yet api.session.request submits it to the remote service —
the validation does not check that mints are pairwise distinct, refuting the
claim as stated. -/
theorem sessionRequest_duplicate_mints_submitted :
    sessionRequestValidate dupMintLimits = .submitted ∧
    ¬ (dupMintLimits.map SpendingLimit.mint).Pairwise (· ≠ ·) := by
  constructor
  · decide
  · decide

/-- C1 (amended): api.session.request validates the limits before submission —
every amount is non-negative and every decimals value is a non-negative
integer — and rejects with a ValidationError without issuing the remote
request when any of these per-entry conditions fails; uniqueness of mints is
not part of the validation. -/
theorem sessionRequest_validates_limits (limits : List SpendingLimit) :
    (sessionRequestValidate limits = .submitted ↔
      ∀ l ∈ limits, 0 ≤ l.amount ∧ l.decimals.isInt = true ∧ 0 ≤ l.decimals) ∧
    (sessionRequestValidate limits = .validationError ↔
      ¬ ∀ l ∈ limits, 0 ≤ l.amount ∧ l.decimals.isInt = true ∧ 0 ≤ l.decimals) := by
  have h : validateLimits limits = true ↔
      ∀ l ∈ limits, 0 ≤ l.amount ∧ l.decimals.isInt = true ∧ 0 ≤ l.decimals := by
    simp [validateLimits, List.all_eq_true, spendingLimitValid, Bool.and_eq_true,
      decide_eq_true_iff, and_assoc]
  unfold sessionRequestValidate
  by_cases hv : validateLimits limits = true
  · rw [if_pos hv]
    exact ⟨⟨fun _ => h.mp hv, fun _ => rfl⟩,
      ⟨fun hc => SessionRequestResult.noConfusion hc,
       fun hc => (hc (h.mp hv)).elim⟩⟩
  · rw [if_neg hv]
    have hn : ¬ ∀ l ∈ limits, 0 ≤ l.amount ∧ l.decimals.isInt = true ∧ 0 ≤ l.decimals :=
      fun hall => hv (h.mpr hall)
    exact ⟨⟨fun hc => SessionRequestResult.noConfusion hc, fun hc => (hn hc).elim⟩,
      ⟨fun _ => hn, fun _ => rfl⟩⟩

/-- C1 witness: a well-formed single-limit array is submitted. -/
theorem sessionRequest_validates_limits_witness :
    sessionRequestValidate [⟨"native", 5, 9, none⟩] = .submitted :=
  (sessionRequest_validates_limits [⟨"native", 5, 9, none⟩]).1.mpr (by decide)

/-- C2: SpendingLimitSchema accepts a fractional amount (0.5 passes
z.number().nonnegative(), which does not require an integer), and the two
screens disagree about the spent-versus-limit comparison: for a 1 SOL limit
stored in base units and spent = 1000000000 base units (fully spent),
SessionDetailScreen's base-unit comparison reports the limit exhausted while
AgentDetailScreen's progress computation — which compares spent against
limit.amount * Math.pow(10, limit.decimals) — does not, contradicting the
code's own comment that both values are base units. -/
theorem spent_limit_comparison_diverges :
    spendingLimitValid { mint := "native", amount := mkRat 1 2, decimals := 9, symbol := none }
      = true ∧
    spendingProgressIsExhausted solLimit 1000000000 = true ∧
    sessionListItemIsExhausted solLimit 1000000000 = false := by
  have hpow : pow10 (9 : ℚ) = 1000000000 := by
    unfold pow10
    have h9 : ((9 : ℚ)).num.toNat = 9 := by decide
    rw [h9]
    decide
  refine ⟨by decide, by decide, ?_⟩
  unfold sessionListItemIsExhausted solLimit
  simp only [hpow, decide_eq_false_iff_not, not_le]
  norm_num

/-- C3 counterexample: at the boundary instant now = expiresAt the lazy expiry
check leaves an active session active — the code compares expiresAt < now
strictly, so the session is not yet treated as expired there, refuting the
claim's boundary condition. -/
theorem checkExpiry_boundary_keeps_active :
    sampleSession.status = .active ∧ sampleSession.expiresAt = 100000 ∧
    (checkExpiry 100000 sampleSession).status = .active := by
  refine ⟨rfl, rfl, by decide⟩

/-- C3 (amended): the expiry check applied when sessions are loaded/read
transitions an active session to expired exactly when now > expiresAt
(strictly); at the boundary now = expiresAt, and whenever the status is not
active or expiresAt is in the future, the session is left unchanged. -/
theorem checkExpiry_strict_transition (now : Nat) (s : Session) :
    (s.status = .active → s.expiresAt < now →
      checkExpiry now s = { s with status := .expired }) ∧
    (¬ (s.status = .active ∧ s.expiresAt < now) → checkExpiry now s = s) := by
  constructor
  · intro h1 h2
    unfold checkExpiry
    rw [if_pos ⟨h1, h2⟩]
  · intro h
    unfold checkExpiry
    rw [if_neg h]

/-- C3 witness: one instant past expiry the sample session flips to expired;
at the boundary instant it is unchanged. -/
theorem checkExpiry_strict_transition_witness :
    checkExpiry 100001 sampleSession = { sampleSession with status := .expired } ∧
    checkExpiry 100000 sampleSession = sampleSession :=
  ⟨(checkExpiry_strict_transition 100001 sampleSession).1 rfl (by decide),
   (checkExpiry_strict_transition 100000 sampleSession).2 (by decide)⟩

/-- C4 counterexample: the generic session-update operation is unguarded: on a
collection holding one session whose status is the terminal expired, an update
record { status: 'active' } moves it back to active, refuting the claim that
no session-store operation changes the status of a terminal session. -/
theorem updateSession_changes_terminal_status :
    expiredSession.status = .expired ∧
    (updateSession [expiredSession] "s2" { status := some .active }).map Session.status
      = [.active] := by
  refine ⟨rfl, by decide⟩

/-- C4 (amended): the operations actually exercised by the app preserve
terminal statuses: the expiry check leaves any session whose status is in
{expired, revoked, exhausted} unchanged, and the revoke action — which the
screen only offers while the displayed session (the one whose id is targeted)
is active — leaves every terminal session unchanged as long as session ids are
unique; the generic updateSession itself enforces no such guard. -/
theorem terminal_status_preserved_by_expiry_and_guarded_revoke
    (now : Nat) (ss : List Session) (s t : Session) (sid : String)
    (hs : s ∈ ss) (hterm : s.status.isTerminal = true)
    (ht : t ∈ ss) (hid : t.id = sid) (hact : t.status = .active)
    (hnodup : (ss.map Session.id).Nodup) :
    checkExpiry now s = s ∧ updateFn sid revokePatch s = s := by
  have hsact : s.status ≠ .active := by
    intro h
    rw [h] at hterm
    simp [SessionStatus.isTerminal] at hterm
  constructor
  · unfold checkExpiry
    rw [if_neg]
    rintro ⟨h1, _⟩
    exact hsact h1
  · unfold updateFn
    rw [if_neg]
    intro h
    have hst : s = t := List.inj_on_of_nodup_map hnodup hs ht (h.trans hid.symm)
    rw [hst, hact] at hsact
    exact hsact rfl

/-- C4 witness: in a store holding the active session s1 and the terminal
session s2, revoking s1 (the only session the screen lets the user revoke)
leaves s2 untouched, as does the expiry check. -/
theorem terminal_status_preserved_witness :
    checkExpiry 500000 expiredSession = expiredSession ∧
    updateFn "s1" revokePatch expiredSession = expiredSession :=
  terminal_status_preserved_by_expiry_and_guarded_revoke 500000
    [sampleSession, expiredSession] expiredSession sampleSession "s1"
    (by decide) (by decide) (by decide) rfl rfl (by decide)

/-- Applying the expiry check twice at one instant is the same as applying it
once: a flipped session is no longer active, and an untouched session is
untouched again. -/
theorem checkExpiry_idem (now : Nat) (s : Session) :
    checkExpiry now (checkExpiry now s) = checkExpiry now s := by
  unfold checkExpiry
  by_cases h : s.status = .active ∧ s.expiresAt < now
  · rw [if_pos h, if_neg]
    rintro ⟨h1, _⟩
    exact SessionStatus.noConfusion h1
  · rw [if_neg h, if_neg h]

/-- C5: the load-time expiry pass is idempotent — for every sessions
collection and every fixed now (in particular any now past the expiry
instants), applying the pass twice with that same now yields exactly the
collection produced by applying it once. -/
theorem expirePass_idempotent (now : Nat) (sessions : List Session) :
    expirePass now (expirePass now sessions) = expirePass now sessions := by
  induction sessions with
  | nil => rfl
  | cons s rest ih =>
      simp only [expirePass, List.map_cons] at ih ⊢
      rw [checkExpiry_idem, ih]

/-- A poll that throws is swallowed: within the wall-clock bound, a network
error entry leaves the loop exactly where it would be without that poll. -/
theorem pollLoop_cons_networkError (start : Nat) (rid : String) (t : Nat)
    (rest : List (Nat × PollResponse)) (h : t ≤ MAX_POLL_DURATION_MS) :
    pollLoop start rid ((t, PollResponse.networkError) :: rest) = pollLoop start rid rest := by
  conv_lhs => unfold pollLoop
  rw [if_neg (Nat.not_lt.mpr h)]

/-- Every outcome of the polling loop is traceable: rejected and expired
outcomes come from explicit service responses in the transcript, an approval
outcome comes from an explicit approved response, and a timeout requires some
poll to have fired past the wall-clock bound. -/
theorem pollLoop_outcome_sources (start : Nat) (rid : String) :
    ∀ (tr : List (Nat × PollResponse)) (o : PollOutcome), pollLoop start rid tr = some o →
      (o = PollOutcome.rejectedDone → ∃ t, (t, PollResponse.rejected) ∈ tr) ∧
      (o = PollOutcome.expiredDone → ∃ t, (t, PollResponse.expired) ∈ tr) ∧
      ((∃ a, o = PollOutcome.approvedDone a) →
        ∃ t aid an, (t, PollResponse.approved aid an) ∈ tr) ∧
      (o = PollOutcome.timedOut → ∃ e ∈ tr, MAX_POLL_DURATION_MS < e.1) := by
  intro tr
  induction tr with
  | nil =>
      intro o h
      exact absurd h (by simp [pollLoop])
  | cons p rest ih =>
      obtain ⟨t, r⟩ := p
      intro o h
      by_cases hb : MAX_POLL_DURATION_MS < t
      · unfold pollLoop at h
        rw [if_pos hb] at h
        injection h with h'
        subst h'
        refine ⟨fun hc => PollOutcome.noConfusion hc, fun hc => PollOutcome.noConfusion hc,
          ?_, fun _ => ⟨(t, r), List.mem_cons_self _ _, hb⟩⟩
        rintro ⟨a, ha⟩
        exact PollOutcome.noConfusion ha
      · unfold pollLoop at h
        rw [if_neg hb] at h
        cases r with
        | approved aid an =>
            injection h with h'
            subst h'
            refine ⟨fun hc => PollOutcome.noConfusion hc, fun hc => PollOutcome.noConfusion hc,
              fun _ => ⟨t, aid, an, List.mem_cons_self _ _⟩, fun hc => PollOutcome.noConfusion hc⟩
        | rejected =>
            injection h with h'
            subst h'
            refine ⟨fun _ => ⟨t, List.mem_cons_self _ _⟩, fun hc => PollOutcome.noConfusion hc,
              ?_, fun hc => PollOutcome.noConfusion hc⟩
            rintro ⟨a, ha⟩
            exact PollOutcome.noConfusion ha
        | expired =>
            injection h with h'
            subst h'
            refine ⟨fun hc => PollOutcome.noConfusion hc, fun _ => ⟨t, List.mem_cons_self _ _⟩,
              ?_, fun hc => PollOutcome.noConfusion hc⟩
            rintro ⟨a, ha⟩
            exact PollOutcome.noConfusion ha
        | pending =>
            obtain ⟨h1, h2, h3, h4⟩ := ih o h
            refine ⟨fun hc => (h1 hc).imp fun u hu => List.mem_cons_of_mem _ hu,
              fun hc => (h2 hc).imp fun u hu => List.mem_cons_of_mem _ hu,
              fun hc => ?_,
              fun hc => ?_⟩
            · obtain ⟨u, aid, an, hu⟩ := h3 hc
              exact ⟨u, aid, an, List.mem_cons_of_mem _ hu⟩
            · obtain ⟨e, he, hgt⟩ := h4 hc
              exact ⟨e, List.mem_cons_of_mem _ he, hgt⟩
        | networkError =>
            obtain ⟨h1, h2, h3, h4⟩ := ih o h
            refine ⟨fun hc => (h1 hc).imp fun u hu => List.mem_cons_of_mem _ hu,
              fun hc => (h2 hc).imp fun u hu => List.mem_cons_of_mem _ hu,
              fun hc => ?_,
              fun hc => ?_⟩
            · obtain ⟨u, aid, an, hu⟩ := h3 hc
              exact ⟨u, aid, an, List.mem_cons_of_mem _ hu⟩
            · obtain ⟨e, he, hgt⟩ := h4 hc
              exact ⟨e, List.mem_cons_of_mem _ he, hgt⟩

/-- On the ideal setInterval schedule, a run of polls that only ever observe
pending or thrown network errors reaches a poll past the wall-clock bound and
times out. -/
theorem pollLoop_schedule_timeout (start : Nat) (rid : String) :
    ∀ (rs : List PollResponse) (k : Nat),
      (∀ r ∈ rs, r = PollResponse.pending ∨ r = PollResponse.networkError) →
      (∃ i, i < rs.length ∧ MAX_POLL_DURATION_MS < POLL_INTERVAL_MS * (k + i)) →
      pollLoop start rid (scheduleFrom k rs) = some PollOutcome.timedOut := by
  intro rs
  induction rs with
  | nil =>
      intro k _ hex
      obtain ⟨i, hi, _⟩ := hex
      exact absurd hi (by simp)
  | cons r rest ih =>
      intro k hall hex
      by_cases hb : MAX_POLL_DURATION_MS < POLL_INTERVAL_MS * k
      · unfold scheduleFrom pollLoop
        rw [if_pos hb]
      · obtain ⟨i, hi, hgt⟩ := hex
        have hi0 : i ≠ 0 := by
          intro h0
          subst h0
          rw [Nat.add_zero] at hgt
          exact hb hgt
        have hlen : i < rest.length + 1 := by simpa using hi
        have hex' : ∃ j, j < rest.length ∧
            MAX_POLL_DURATION_MS < POLL_INTERVAL_MS * ((k + 1) + j) := by
          refine ⟨i - 1, by omega, ?_⟩
          have harith : (k + 1) + (i - 1) = k + i := by omega
          rw [harith]
          exact hgt
        have hall' : ∀ u ∈ rest, u = PollResponse.pending ∨ u = PollResponse.networkError :=
          fun u hu => hall u (List.mem_cons_of_mem _ hu)
        rcases hall r (List.mem_cons_self _ _) with hp | hn
        · subst hp
          unfold scheduleFrom pollLoop
          rw [if_neg hb]
          exact ih (k + 1) hall' hex'
        · subst hn
          unfold scheduleFrom pollLoop
          rw [if_neg hb]
          exact ih (k + 1) hall' hex'

/-- C6: the pairing poll loop uses a fixed 2000 ms interval and a 120000 ms
wall-clock bound; a poll that throws never terminates the loop and is never
reported as a rejected or expired outcome; the loop ends only on an explicit
service outcome or past the wall-clock bound; and exceeding the bound yields a
timeout outcome, distinct from the expired outcome, which stops polling. -/
theorem pollLoop_spec :
    (POLL_INTERVAL_MS = 2000 ∧ MAX_POLL_DURATION_MS = 120000) ∧
    (PollOutcome.timedOut ≠ PollOutcome.expiredDone) ∧
    (∀ start rid t rest, t ≤ MAX_POLL_DURATION_MS →
      pollLoop start rid ((t, PollResponse.networkError) :: rest) = pollLoop start rid rest) ∧
    (∀ start rid tr o, pollLoop start rid tr = some o →
      (o = PollOutcome.rejectedDone → ∃ t, (t, PollResponse.rejected) ∈ tr) ∧
      (o = PollOutcome.expiredDone → ∃ t, (t, PollResponse.expired) ∈ tr) ∧
      ((∃ a, o = PollOutcome.approvedDone a) →
        ∃ t aid an, (t, PollResponse.approved aid an) ∈ tr) ∧
      (o = PollOutcome.timedOut → ∃ e ∈ tr, MAX_POLL_DURATION_MS < e.1)) ∧
    (∀ start rid rs, (∀ r ∈ rs, r = PollResponse.pending ∨ r = PollResponse.networkError) →
      62 ≤ rs.length → pollLoop start rid (scheduleFrom 0 rs) = some PollOutcome.timedOut) := by
  refine ⟨⟨rfl, rfl⟩, fun hc => PollOutcome.noConfusion hc, ?_, ?_, ?_⟩
  · intro start rid t rest h
    exact pollLoop_cons_networkError start rid t rest h
  · intro start rid tr o h
    exact pollLoop_outcome_sources start rid tr o h
  · intro start rid rs hall hlen
    exact pollLoop_schedule_timeout start rid rs 0 hall ⟨61, by omega, by decide⟩

/-- C6 witness: a network-error poll at elapsed 0 continues the loop; sixty
two pending polls on the 2000 ms schedule end in a timeout; a rejected
response is traceable to a rejected transcript entry. -/
theorem pollLoop_spec_witness :
    pollLoop 0 "ABC123" [(0, PollResponse.networkError)] = pollLoop 0 "ABC123" [] ∧
    pollLoop 0 "ABC123" (scheduleFrom 0 (List.replicate 62 PollResponse.pending))
      = some PollOutcome.timedOut ∧
    (∃ t, (t, PollResponse.rejected) ∈ [((2000 : Nat), PollResponse.rejected)]) :=
  ⟨pollLoop_spec.2.2.1 0 "ABC123" 0 [] (by decide),
   pollLoop_spec.2.2.2.2 0 "ABC123" (List.replicate 62 PollResponse.pending)
     (fun r hr => Or.inl (List.eq_of_mem_replicate hr)) (by simp),
   (pollLoop_spec.2.2.2.1 0 "ABC123" [((2000 : Nat), PollResponse.rejected)]
     PollOutcome.rejectedDone (by decide)).1 rfl⟩

/-- The agent carried by an approval outcome is exactly the record built from
an approved transcript entry observed within the wall-clock bound. -/
theorem pollLoop_approved_agent (start : Nat) (rid : String) :
    ∀ (tr : List (Nat × PollResponse)) (a : Agent),
      pollLoop start rid tr = some (PollOutcome.approvedDone a) →
      ∃ t aid an, (t, PollResponse.approved aid an) ∈ tr ∧ t ≤ MAX_POLL_DURATION_MS ∧
        a = mkAgentFromApproval aid an rid (start + t) := by
  intro tr
  induction tr with
  | nil =>
      intro a h
      exact absurd h (by simp [pollLoop])
  | cons p rest ih =>
      obtain ⟨t, r⟩ := p
      intro a h
      by_cases hb : MAX_POLL_DURATION_MS < t
      · unfold pollLoop at h
        rw [if_pos hb] at h
        injection h with h'
        exact PollOutcome.noConfusion h'
      · unfold pollLoop at h
        rw [if_neg hb] at h
        cases r with
        | approved aid an =>
            injection h with h'
            injection h' with h''
            exact ⟨t, aid, an, List.mem_cons_self _ _, Nat.not_lt.mp hb, h''.symm⟩
        | rejected =>
            injection h with h'
            exact PollOutcome.noConfusion h'
        | expired =>
            injection h with h'
            exact PollOutcome.noConfusion h'
        | pending =>
            obtain ⟨u, aid, an, hmem, hle, ha⟩ := ih a h
            exact ⟨u, aid, an, List.mem_cons_of_mem _ hmem, hle, ha⟩
        | networkError =>
            obtain ⟨u, aid, an, hmem, hle, ha⟩ := ih a h
            exact ⟨u, aid, an, List.mem_cons_of_mem _ hmem, hle, ha⟩

/-- C7: a poll sequence ending in an approved response yields an agent record
with status active, lastSeen null, and pairedAt the approval-time clock value
start + t; the registry add rejects an agent whose id already exists (leaving
the collection unchanged), and a fresh add stores exactly one record with that
id and makes any repeated add a rejected no-op — so the record is persisted
exactly once even if polling is retried. -/
theorem pairing_approved_agent_spec :
    (∀ start rid tr a, pollLoop start rid tr = some (PollOutcome.approvedDone a) →
      a.status = AgentStatus.active ∧ a.lastSeen = none ∧
      ∃ t aid an, (t, PollResponse.approved aid an) ∈ tr ∧ t ≤ MAX_POLL_DURATION_MS ∧
        a.pairedAt = start + t) ∧
    (∀ agents a, agents.any (fun b => b.id == a.id) = true →
      addAgent agents a = (agents, some "Agent already paired")) ∧
    (∀ agents a, agents.any (fun b => b.id == a.id) = false →
      (addAgent agents a).1 = agents ++ [a] ∧
      (addAgent agents a).1.countP (fun b => b.id == a.id) = 1 ∧
      addAgent (addAgent agents a).1 a
        = ((addAgent agents a).1, some "Agent already paired")) := by
  refine ⟨?_, ?_, ?_⟩
  · intro start rid tr a h
    obtain ⟨t, aid, an, hmem, hle, ha⟩ := pollLoop_approved_agent start rid tr a h
    subst ha
    exact ⟨rfl, rfl, t, aid, an, hmem, hle, rfl⟩
  · intro agents a h
    unfold addAgent
    rw [if_pos h]
  · intro agents a h
    have hfst : addAgent agents a = (agents ++ [a], none) := by
      unfold addAgent
      rw [if_neg (by simp [h])]
    have h0 : agents.countP (fun b => b.id == a.id) = 0 := by
      rw [List.countP_eq_zero]
      intro b hb
      have hfalse := List.any_eq_false.mp h b hb
      simpa using hfalse
    refine ⟨by rw [hfst], ?_, ?_⟩
    · rw [hfst, List.countP_append, h0]
      simp
    · rw [hfst]
      unfold addAgent
      rw [if_pos (by simp)]

/-- C7 witness: the scenario transcript (three pendings then approved with
agentId a1 and agentName Bot, pollStart 1000) produces the agent record
agentBot with status active and lastSeen null; adding it to an empty registry
appends it, and adding it again is rejected without a second record. -/
theorem pairing_approved_agent_spec_witness :
    agentBot.status = AgentStatus.active ∧ agentBot.lastSeen = none ∧
    (addAgent [] agentBot).1 = [] ++ [agentBot] ∧
    addAgent [agentBot] agentBot = ([agentBot], some "Agent already paired") := by
  have h1 := pairing_approved_agent_spec.1 1000 "ABC123" scenarioTranscript agentBot (by decide)
  have h2 := (pairing_approved_agent_spec.2.2 [] agentBot (by decide)).1
  have h3 := pairing_approved_agent_spec.2.1 [agentBot] agentBot (by decide)
  exact ⟨h1.1, h1.2.1, h2, h3⟩

/-- C8: the Cancel button handler of PairAgentScreen does not stop the poll
timer — after cancelling from the polling state the interval is still
installed, and a subsequent poll observing an approved response still applies
the outcome: it flips the screen to success and adds the agent to the
registry.  This contradicts the cancellation contract, which requires the
timer to stop and partially-received outcomes to be discarded. -/
theorem cancel_leaves_timer_running :
    (handleRetry pollingState).intervalActive = true ∧
    (handleRetry pollingState).pairing = PairingUiState.idle ∧
    (pollCallback 4000 (PollResponse.approved (some "a1") (some "Bot")) "ABC123" 5000
      (handleRetry pollingState) []).1.pairing = PairingUiState.success "Bot" ∧
    (pollCallback 4000 (PollResponse.approved (some "a1") (some "Bot")) "ABC123" 5000
      (handleRetry pollingState) []).2
      = [mkAgentFromApproval (some "a1") (some "Bot") "ABC123" 5000] := by
  refine ⟨rfl, rfl, by decide, by decide⟩

/-- C9 counterexample: with the active session sampleSession (agentId a1)
still live, useAgentStore.removeAgent removes agent a1 anyway and surfaces no
error, refuting the claim that the remove-agent operation fails loudly when an
active session exists for the agent. -/
theorem removeAgent_ignores_active_sessions :
    sampleSession.agentId = agentA1.id ∧ sampleSession.status = SessionStatus.active ∧
    removeAgent [agentA1] "a1" = ([], none) := by
  refine ⟨rfl, rfl, by decide⟩

/-- C9 (amended): removeAgent enforces no precondition on live sessions — it
unconditionally removes the agent and reports no error — while the unpair flow
compensates by deleting all of the agent's sessions before removing the agent,
so the unpair sequence leaves no session (active or otherwise) and no agent
record for the removed agent id. -/
theorem removeAgent_unconditional_unpair_cleans
    (agents : List Agent) (sessions : List Session) (agentId : String) :
    (removeAgent agents agentId).2 = none ∧
    (∀ a ∈ (removeAgent agents agentId).1, a.id ≠ agentId) ∧
    (∀ s ∈ (handleUnpair agents sessions agentId).2, s.agentId ≠ agentId) ∧
    (∀ a ∈ (handleUnpair agents sessions agentId).1, a.id ≠ agentId) := by
  refine ⟨rfl, ?_, ?_, ?_⟩
  · intro a ha
    unfold removeAgent at ha
    have hmem := (List.mem_filter.mp ha).2
    simpa using hmem
  · intro s hs
    unfold handleUnpair removeSessionsForAgent at hs
    have hmem := (List.mem_filter.mp hs).2
    simpa using hmem
  · intro a ha
    unfold handleUnpair removeAgent at ha
    have hmem := (List.mem_filter.mp ha).2
    simpa using hmem

/-- C9 witness: removing a different agent id keeps agentA1 in the registry,
the operation surfaces no error, and the kept record's id is not the removed
one. -/
theorem removeAgent_unconditional_unpair_cleans_witness :
    (removeAgent [agentA1] "a2").2 = none ∧ agentA1.id ≠ "a2" :=
  ⟨(removeAgent_unconditional_unpair_cleans [agentA1] [] "a2").1,
   (removeAgent_unconditional_unpair_cleans [agentA1] [] "a2").2.1 agentA1 (by decide)⟩

end Odyssey
